import Mathlib

/-!
Shallow embedding of `openid/yadis/manager.py`: the session-backed
`YadisServiceManager` ("ServiceQueue") and the `Discovery` coordinator.

Python values that flow through the manager's dict slots are modelled by
`Val`; a session is an association list from keys to stored values; every
operation that can raise (`TypeError` from `list(None)`, `KeyError` from
`createManager`, `StopIteration` from `next`) returns `Except String`.
-/

def kStartingURL : String := "starting_url"

def kYadisURL : String := "yadis_url"

def kServices : String := "services"

def kSessionKey : String := "session_key"

def kCurrent : String := "_current"

/-- `Discovery.PREFIX` in the source. -/
def keyBase : String := "_yadis_services_"

/-- `Discovery.DEFAULT_SUFFIX` in the source. -/
def defaultSuffix : String := "auth"

def errTypeError : String := "TypeError"

def errKeyError : String := "KeyError"

def errStopIteration : String := "StopIteration"

/-- A Python value as it can appear in the manager's dict slots: `None`, a
string, an opaque service descriptor (of type `α`), a list, or a tuple. -/
inductive Val (α : Type) : Type where
  | none : Val α
  | str : String → Val α
  | svc : α → Val α
  | list : List (Val α) → Val α
  | tuple : List (Val α) → Val α

/-- Python `==` on `Val` (used for `in`-membership and session-key lookup). -/
def Val.beq [BEq α] : Val α → Val α → Bool
  | .none, .none => true
  | .str a, .str b => a == b
  | .svc a, .svc b => a == b
  | .list as, .list bs => go as bs
  | .tuple as, .tuple bs => go as bs
  | _, _ => false
where
  go : List (Val α) → List (Val α) → Bool
  | [], [] => true
  | a :: as, b :: bs => a.beq b && go as bs
  | _, _ => false

instance [BEq α] : BEq (Val α) := ⟨Val.beq⟩

/-- Python `x is None` for our value domain. -/
def Val.isNone : Val α → Bool
  | .none => true
  | _ => false

/-- Python `list(x)`: succeeds on iterables (lists, tuples, strings — a string
yields its one-character strings), raises `TypeError` on `None` or any other
non-iterable, which we model as `Option.none`. -/
def pyList : Val α → Option (List (Val α))
  | .list l => some l
  | .tuple l => some l
  | .str s => some (s.toList.map fun c => Val.str (String.mk [c]))
  | _ => Option.none

/-- `YadisServiceManager`: a dict with the five slots written by
`__init__` (`starting_url`, `yadis_url`, `services`, `session_key`,
`_current`); `cur` is the `_current` slot. -/
structure YadisServiceManager (α : Type) where
  starting_url : Val α
  yadis_url : Val α
  services : List (Val α)
  session_key : Val α
  cur : Val α

/-- `YadisServiceManager.__init__`: stores `list(services)` (which raises
`TypeError` when `services` is not iterable, e.g. `None`) and sets
`_current` to `None`. -/
def YadisServiceManager.init (su yu sv sk : Val α) :
    Except String (YadisServiceManager α) :=
  match pyList sv with
  | some l => .ok ⟨su, yu, l, sk, Val.none⟩
  | Option.none => .error errTypeError

/-- `__len__`: how many untried services remain. -/
def YadisServiceManager.len (m : YadisServiceManager α) : Nat :=
  m.services.length

/-- Python truthiness of a manager: `bool(m)` goes through `__len__`. -/
def YadisServiceManager.isTruthy (m : YadisServiceManager α) : Bool :=
  m.services.length != 0

/-- `__next__`: `self._current = self.services.pop(0)` and return it;
`pop(0)` on an empty list raises (`StopIteration`), modelled as first
component `Option.none`, and then the manager is left unchanged. -/
def YadisServiceManager.next (m : YadisServiceManager α) :
    Option (Val α) × YadisServiceManager α :=
  match m.services with
  | [] => (Option.none, m)
  | s :: rest => (some s, { m with cur := s, services := rest })

/-- `current()`: the `_current` slot. -/
def YadisServiceManager.current (m : YadisServiceManager α) : Val α :=
  m.cur

/-- `forURL`: `url in [self.starting_url, self.yadis_url]`. -/
def YadisServiceManager.forURL [BEq α] (m : YadisServiceManager α)
    (url : String) : Bool :=
  (Val.str url).beq m.starting_url || (Val.str url).beq m.yadis_url

/-- `started()`: `self._current is not None`. -/
def YadisServiceManager.started (m : YadisServiceManager α) : Bool :=
  !m.cur.isNone

/-- A value stored in the session: either a full `YadisServiceManager`
object or a plain dict (the `type(manager) == dict` compatibility case). -/
inductive SessVal (α : Type) where
  | mgr : YadisServiceManager α → SessVal α
  | record : List (String × Val α) → SessVal α

/-- The caller-supplied session: a mutable mapping, modelled as an
association list from (Python-value) keys to stored values. -/
abbrev Session (α : Type) := List (Val α × SessVal α)

def sessGet [BEq α] (s : Session α) (k : Val α) : Option (SessVal α) :=
  (s.find? fun p => p.1.beq k).map fun p => p.2

def sessSet [BEq α] (s : Session α) (k : Val α) (v : SessVal α) : Session α :=
  if s.any fun p => p.1.beq k then
    s.map fun p => if p.1.beq k then (k, v) else p
  else
    s ++ [(k, v)]

def sessDel [BEq α] (s : Session α) (k : Val α) : Session α :=
  s.filter fun p => !p.1.beq k

/-- `store(session)`: `session[self.session_key] = self`. -/
def YadisServiceManager.store [BEq α] (m : YadisServiceManager α)
    (sess : Session α) : Session α :=
  sessSet sess m.session_key (SessVal.mgr m)

/-- The `Discovery` coordinator: its session is passed explicitly to each
operation. -/
structure Discovery where
  url : String
  session_key_suffix : String

/-- `Discovery.__init__`: a `None` suffix defaults to `DEFAULT_SUFFIX`. -/
def Discovery.init (url : String) (suffix : Option String) : Discovery :=
  ⟨url, suffix.getD defaultSuffix⟩

/-- `getSessionKey()`: `self.PREFIX + self.session_key_suffix`. -/
def Discovery.getSessionKey (d : Discovery) : String :=
  keyBase ++ d.session_key_suffix

/-- `data.get(k, None)` on a plain dict. -/
def recGet (d : List (String × Val α)) (k : String) : Val α :=
  match d.find? fun p => p.1 == k with
  | some p => p.2
  | Option.none => Val.none

/-- `Discovery._from_dict`: rebuilds a manager from a plain dict.  Note the
source's trailing commas: `newmanager._current = data.get("_current", None),`
assigns the one-element tuple `(data.get("_current", None),)` to the
`_current` slot.  (The `server_url` … `display_identifier` lines assign
plain object attributes, not dict slots, and are never read back.) -/
def Discovery.fromDict (d : List (String × Val α)) :
    Except String (YadisServiceManager α) :=
  match YadisServiceManager.init (recGet d kStartingURL) (recGet d kYadisURL)
      (recGet d kServices) (recGet d kSessionKey) with
  | .error e => .error e
  | .ok m => .ok { m with cur := Val.tuple [recGet d kCurrent] }

/-- `getManager(force)`: fetch `session[key]`, decode a plain dict via
`_from_dict`, return the manager iff it is non-`None` and
(`forURL(self.url)` or `force`). -/
def Discovery.getManager [BEq α] (disc : Discovery) (sess : Session α)
    (force : Bool) : Except String (Option (YadisServiceManager α)) :=
  let fetched : Except String (Option (YadisServiceManager α)) :=
    match sessGet sess (Val.str disc.getSessionKey) with
    | Option.none => .ok Option.none
    | some (SessVal.mgr m) => .ok (some m)
    | some (SessVal.record d) =>
      match Discovery.fromDict d with
      | .error e => .error e
      | .ok m => .ok (some m)
  match fetched with
  | .error e => .error e
  | .ok Option.none => .ok Option.none
  | .ok (some m) =>
    if m.forURL disc.url || force then .ok (some m) else .ok Option.none

/-- `destroyManager(force)`: delete `session[key]` if `getManager(force)`
is non-`None`.  The second component counts deletions of the coordinator's
session slot. -/
def Discovery.destroyManager [BEq α] (disc : Discovery) (sess : Session α)
    (force : Bool) : Except String (Session α × Nat) :=
  match disc.getManager sess force with
  | .error e => .error e
  | .ok (some _) => .ok (sessDel sess (Val.str disc.getSessionKey), 1)
  | .ok Option.none => .ok (sess, 0)

/-- `createManager(services, yadis_url)`: raises `KeyError` when
`if self.getManager():` is truthy; returns `None` without storing when
`services` is empty; otherwise builds
`YadisServiceManager(self.url, yadis_url, services, key)` and stores it.
The `Nat` counts writes to the coordinator's session slot. -/
def Discovery.createManager [BEq α] (disc : Discovery) (sess : Session α)
    (services : List (Val α)) (yadis_url : Val α) :
    Except String (Option (YadisServiceManager α) × Session α × Nat) :=
  match disc.getManager sess false with
  | .error e => .error e
  | .ok fetched =>
    if (match fetched with
        | some m => m.isTruthy
        | Option.none => false) then
      .error errKeyError
    else if services.isEmpty then
      .ok (Option.none, sess, 0)
    else
      let m : YadisServiceManager α :=
        ⟨Val.str disc.url, yadis_url, services,
          Val.str disc.getSessionKey, Val.none⟩
      .ok (some m, m.store sess, 1)

/-- Result of one `getNextService` call: the returned service (or a raised
error), the session afterwards, how many times the injected `discover`
function was called, and how many times the coordinator's session slot was
written or deleted. -/
structure NSResult (α : Type) where
  result : Except String (Option (Val α))
  session : Session α
  discoverCalls : Nat
  slotMutations : Nat

/-- The tail of `getNextService`: `if manager: service = next(manager);
manager.store(self.session) else: service = None`.  A store counts as a
slot mutation only when the manager's own `session_key` is the
coordinator's key. -/
def Discovery.handOut [BEq α] (disc : Discovery)
    (mgr : Option (YadisServiceManager α)) (sess : Session α) :
    Except String (Option (Val α)) × Session α × Nat :=
  match mgr with
  | some m =>
    if m.isTruthy then
      match m.next with
      | (some s, m') =>
        (.ok (some s), m'.store sess,
          if m'.session_key.beq (Val.str disc.getSessionKey) then 1 else 0)
      | (Option.none, _) => (.error errStopIteration, sess, 0)
    else
      (.ok Option.none, sess, 0)
  | Option.none => (.ok Option.none, sess, 0)

/-- `getNextService(discover)`: load the manager; if it exists but is
exhausted, destroy it; if no (truthy) manager, run discovery and create a
fresh one; finally advance and re-store. -/
def Discovery.getNextService [BEq α] (disc : Discovery) (sess : Session α)
    (discover : String → Val α × List (Val α)) : NSResult α :=
  match disc.getManager sess false with
  | .error e => ⟨.error e, sess, 0, 0⟩
  | .ok mgr0 =>
    let step1 : Except String (Session α × Nat) :=
      match mgr0 with
      | some m =>
        if !m.isTruthy then disc.destroyManager sess false else .ok (sess, 0)
      | Option.none => .ok (sess, 0)
    match step1 with
    | .error e => ⟨.error e, sess, 0, 0⟩
    | .ok (sess1, muts1) =>
      let needDiscover : Bool :=
        match mgr0 with
        | some m => !m.isTruthy
        | Option.none => true
      if needDiscover then
        let (yadis_url, services) := discover disc.url
        match disc.createManager sess1 services yadis_url with
        | .error e => ⟨.error e, sess1, 1, muts1⟩
        | .ok (mgrNew, sess2, muts2) =>
          match disc.handOut mgrNew sess2 with
          | (res, sess3, muts3) => ⟨res, sess3, 1, muts1 + muts2 + muts3⟩
      else
        match disc.handOut mgr0 sess1 with
        | (res, sess3, muts3) => ⟨res, sess3, 0, muts1 + muts3⟩

/-- `cleanup(force)`: load the manager; if present, capture `current()`
and destroy; otherwise return `None`. -/
def Discovery.cleanup [BEq α] (disc : Discovery) (sess : Session α)
    (force : Bool) : Except String (Val α × Session α) :=
  match disc.getManager sess force with
  | .error e => .error e
  | .ok (some m) =>
    match disc.destroyManager sess force with
    | .error e => .error e
    | .ok (sess', _) => .ok (m.current, sess')
  | .ok Option.none => .ok (Val.none, sess)

/-- The plain-record form of a manager: the five dict slots it carries
(`YadisServiceManager` *is* this dict in the source). -/
def YadisServiceManager.toRecord (m : YadisServiceManager α) :
    List (String × Val α) :=
  [(kStartingURL, m.starting_url), (kYadisURL, m.yadis_url),
    (kServices, Val.list m.services), (kSessionKey, m.session_key),
    (kCurrent, m.cur)]

/-- Drive `next` up to `fuel` times, collecting the services handed out in
order, and stopping at the first `StopIteration`. -/
def advanceN : Nat → YadisServiceManager α → List (Val α) × YadisServiceManager α
  | 0, m => ([], m)
  | n + 1, m =>
    match m.next with
    | (some s, m') =>
      let (tail, mf) := advanceN n m'
      (s :: tail, mf)
    | (Option.none, _) => ([], m)

/-- A coordinator used in the concrete scenarios. -/
def exampleDisc : Discovery := ⟨"https://caller/", "auth"⟩

/-- Its session key, `_yadis_services_auth`. -/
def exampleKey : String := "_yadis_services_auth"

/-- A discovery function that always yields two candidates `S1`, `S2`. -/
def exampleDiscover : String → Val Nat × List (Val Nat) :=
  fun _ => (Val.str "https://id.example/x", [Val.svc 1, Val.svc 2])

/-- A manager for `exampleDisc.url` with one pending candidate. -/
def liveMgr : YadisServiceManager Nat :=
  ⟨Val.str "https://caller/", Val.str "y", [Val.svc 1],
    Val.str exampleKey, Val.none⟩

/-- A session holding `liveMgr` under the coordinator's slot. -/
def liveSession : Session Nat := [(Val.str exampleKey, SessVal.mgr liveMgr)]

/-- A manager for `exampleDisc.url` with no pending candidates (exhausted,
`_current` = `S9`). -/
def exhaustedMgr : YadisServiceManager Nat :=
  ⟨Val.str "https://caller/", Val.str "y", [], Val.str exampleKey,
    Val.svc 9⟩

/-- A session holding `exhaustedMgr` under the coordinator's slot. -/
def exhaustedSession : Session Nat :=
  [(Val.str exampleKey, SessVal.mgr exhaustedMgr)]

/-- The manager `createManager` builds in the `C5` counterexample. -/
def clobberMgr : YadisServiceManager Nat :=
  ⟨Val.str "https://caller/", Val.str "y", [Val.svc 2],
    Val.str exampleDisc.getSessionKey, Val.none⟩

/-- The queue used in the round-trip record example (`active` = none). -/
def rtQueue : YadisServiceManager Nat :=
  ⟨Val.str "a", Val.str "b", [Val.svc 1], Val.str "k", Val.none⟩

/-- A discovery function that resolves but yields zero candidates. -/
def emptyDiscover : String → Val Nat × List (Val Nat) :=
  fun _ => (Val.str "https://id.example/x", [])

/-- The manager built from candidates `[S1, S2]` in the `C7` witness. -/
def twoMgr : YadisServiceManager Nat :=
  ⟨Val.none, Val.none, [Val.svc 1, Val.svc 2], Val.none, Val.none⟩

/-- `twoMgr` after one successful `advance`. -/
def twoMgrAfter : YadisServiceManager Nat :=
  ⟨Val.none, Val.none, [Val.svc 2], Val.none, Val.svc 1⟩

/-- An exhausted queue whose `_current` is `S5`, for the `C10` witness. -/
def doneMgr : YadisServiceManager Nat :=
  ⟨Val.none, Val.none, [], Val.none, Val.svc 5⟩

/-- First `getNextService` call of Scenario A, from the empty session. -/
def step1Res : NSResult Nat := exampleDisc.getNextService [] exampleDiscover

/-- Second call, on the session the first call left behind. -/
def step2Res : NSResult Nat :=
  exampleDisc.getNextService step1Res.session exampleDiscover

/-- Third call, on the session the second call left behind. -/
def step3Res : NSResult Nat :=
  exampleDisc.getNextService step2Res.session exampleDiscover

/-- C1: encoding a `ServiceQueue` to its plain-record form and decoding it
with `Discovery._from_dict` preserves `starting_url`, `yadis_url`,
`services` (in order) and `session_key`, but the reconstructed `_current`
slot is the one-element tuple `(None,)` — not the original `None` — because
of the trailing comma in `_from_dict`.  So the claimed round-trip equality
of the `active` field fails on every queue. -/
theorem C1_roundtrip_active_becomes_tuple :
    Discovery.fromDict rtQueue.toRecord =
      .ok ⟨Val.str "a", Val.str "b", [Val.svc 1], Val.str "k",
        Val.tuple [Val.none]⟩ ∧
    (Val.tuple [Val.none] : Val Nat).isNone = false ∧
    rtQueue.cur.isNone = true :=
  ⟨rfl, rfl, rfl⟩

/-- C2: `_from_dict` applied to the empty plain record is not total: the
missing `services` key defaults to `None`, and `YadisServiceManager.__init__`
then calls `list(None)`, raising `TypeError` instead of defaulting the
pending sequence to empty. -/
theorem C2_fromDict_empty_record_raises :
    Discovery.fromDict ([] : List (String × Val Nat)) = .error errTypeError :=
  rfl

/-- C4: Scenario A — from the empty session, with a discovery function that
always returns `("https://id.example/x", [S1, S2])`: the first
`getNextService` call discovers and returns `S1`; the second returns `S2`
without discovering; the third finds the stored queue exhausted, destroys
it, discovers again (1 discovery call, 3 slot mutations: delete, store on
creation, store after advancing) and returns `S1` again. -/
theorem C4_scenario_two_candidates :
    step1Res.result = .ok (some (Val.svc 1)) ∧ step1Res.discoverCalls = 1 ∧
    step2Res.result = .ok (some (Val.svc 2)) ∧ step2Res.discoverCalls = 0 ∧
    step3Res.result = .ok (some (Val.svc 1)) ∧ step3Res.discoverCalls = 1 ∧
    step3Res.slotMutations = 3 :=
  ⟨rfl, rfl, rfl, rfl, rfl, rfl, rfl⟩

/-- C5 counterexample: a session can hold a queue for this coordinator's
URL that `getManager` (loadQueue) returns as non-`None` — namely an
exhausted one — and yet `createManager` does not raise: `if
self.getManager():` tests Python truthiness (`__len__`), so the exhausted
queue is silently overwritten by a freshly constructed one. -/
theorem C5_counterexample :
    exampleDisc.getManager exhaustedSession false = .ok (some exhaustedMgr) ∧
    exampleDisc.createManager exhaustedSession [Val.svc 2] (Val.str "y") =
      .ok (some clobberMgr,
        [(Val.str exampleDisc.getSessionKey, SessVal.mgr clobberMgr)], 1) :=
  ⟨rfl, rfl⟩

/-- C5 (amended): `createManager` raises `KeyError` (`AlreadyExists`)
whenever `getManager(force=false)` returns a queue with at least one
pending candidate; no new queue is stored in that case. -/
theorem C5_amended_truthy_guard {α : Type} [BEq α] (disc : Discovery)
    (sess : Session α) (m : YadisServiceManager α) (services : List (Val α))
    (yu : Val α) (h : disc.getManager sess false = .ok (some m))
    (ht : m.isTruthy = true) :
    disc.createManager sess services yu = .error errKeyError := by
  unfold Discovery.createManager
  rw [h]
  simp [ht]

theorem C5_amended_witness :
    exampleDisc.createManager liveSession [Val.svc 2] (Val.str "y") =
      .error errKeyError :=
  C5_amended_truthy_guard exampleDisc liveSession liveMgr [Val.svc 2]
    (Val.str "y") rfl rfl

/-- C6: `cleanup` after one `getNextService` call returns the single
candidate handed out and empties the slot, and a second `cleanup` returns
`None`; in general, when `getManager(force)` yields a queue, `cleanup`
returns its `current()` and deletes the coordinator's slot, and when it
yields `None` the session is returned unchanged. -/
theorem C6_cleanup_returns_current_and_deletes :
    (exampleDisc.cleanup step1Res.session false = .ok (Val.svc 1, []) ∧
     exampleDisc.cleanup ([] : Session Nat) false = .ok (Val.none, [])) ∧
    (∀ {α : Type} [BEq α] (disc : Discovery) (sess : Session α)
        (force : Bool) (m : YadisServiceManager α),
      disc.getManager sess force = .ok (some m) →
      disc.cleanup sess force =
        .ok (m.current, sessDel sess (Val.str disc.getSessionKey))) ∧
    (∀ {α : Type} [BEq α] (disc : Discovery) (sess : Session α)
        (force : Bool),
      disc.getManager sess force = .ok Option.none →
      disc.cleanup sess force = .ok (Val.none, sess)) := by
  refine ⟨⟨rfl, rfl⟩, ?_, ?_⟩
  · intro α _ disc sess force m h
    unfold Discovery.cleanup Discovery.destroyManager
    rw [h]
  · intro α _ disc sess force h
    unfold Discovery.cleanup
    rw [h]

theorem C6_cleanup_witness :
    exampleDisc.cleanup liveSession false =
      .ok (liveMgr.current,
        sessDel liveSession (Val.str exampleDisc.getSessionKey)) ∧
    exampleDisc.cleanup ([] : Session Nat) false = .ok (Val.none, []) :=
  ⟨C6_cleanup_returns_current_and_deletes.2.1 exampleDisc liveSession false
      liveMgr rfl,
   C6_cleanup_returns_current_and_deletes.2.2 exampleDisc [] false rfl⟩

/-- Python `url == v` against a string is true exactly for the equal
string value. -/
theorem val_beq_str_iff {α : Type} [BEq α] (u : String) (v : Val α) :
    (Val.str u).beq v = true ↔ v = Val.str u := by
  cases v <;> simp [Val.beq]
  exact comm

/-- C9: when the slot holds queue `Q`, `getManager(force)` returns `Q`
iff `force` is true or `Q.forURL(url)`, and `None` otherwise; `forURL u`
holds iff `u` equals the queue's `starting_url` or its `yadis_url`. -/
theorem C9_getManager_force_or_matching {α : Type} [BEq α]
    (disc : Discovery) (sess : Session α) (force : Bool)
    (Q : YadisServiceManager α)
    (hs : sessGet sess (Val.str disc.getSessionKey) = some (SessVal.mgr Q)) :
    disc.getManager sess force =
      .ok (if force || Q.forURL disc.url then some Q else Option.none) ∧
    ∀ u : String,
      Q.forURL u = true ↔
        (Q.starting_url = Val.str u ∨ Q.yadis_url = Val.str u) := by
  constructor
  · unfold Discovery.getManager
    rw [hs]
    cases hf : Q.forURL disc.url <;> cases force <;> simp [hf]
  · intro u
    simp [YadisServiceManager.forURL, val_beq_str_iff]

theorem C9_witness :
    exampleDisc.getManager liveSession false =
      .ok (if false || liveMgr.forURL exampleDisc.url then some liveMgr
        else Option.none) ∧
    (liveMgr.forURL "https://caller/" = true ↔
      (liveMgr.starting_url = Val.str "https://caller/" ∨
        liveMgr.yadis_url = Val.str "https://caller/")) :=
  ⟨(C9_getManager_force_or_matching exampleDisc liveSession false liveMgr
      rfl).1,
   (C9_getManager_force_or_matching exampleDisc liveSession false liveMgr
      rfl).2 "https://caller/"⟩

/-- C10: `__next__` on a queue with no pending services raises
`StopIteration` (modelled as first component `Option.none`) and leaves the
queue unchanged: `_current` keeps its previous value (so `current()` still
returns the last handed-out candidate) and `services` stays empty. -/
theorem C10_exhausted_advance_unchanged {α : Type}
    (m : YadisServiceManager α) (h : m.services = []) :
    m.next = (Option.none, m) ∧ m.next.2.current = m.current ∧
    m.next.2.services = [] := by
  unfold YadisServiceManager.next
  rw [h]
  exact ⟨rfl, rfl, h⟩

theorem C10_witness :
    doneMgr.next = (Option.none, doneMgr) ∧
    doneMgr.next.2.current = doneMgr.current ∧
    doneMgr.next.2.services = [] :=
  C10_exhausted_advance_unchanged doneMgr rfl

/-- C8: when no usable queue is loaded and discovery yields zero
candidates, `getNextService` returns `None` normally (no raise), leaves
the session unchanged (no slot created), calls `discover` once, and
performs no slot mutation. -/
theorem C8_empty_discovery_is_normal_none {α : Type} [BEq α]
    (disc : Discovery) (sess : Session α)
    (discover : String → Val α × List (Val α)) (yu : Val α)
    (hg : disc.getManager sess false = .ok Option.none)
    (hd : discover disc.url = (yu, [])) :
    disc.getNextService sess discover = ⟨.ok Option.none, sess, 1, 0⟩ := by
  simp [Discovery.getNextService, Discovery.createManager, Discovery.handOut,
    hg, hd]

theorem C8_witness :
    exampleDisc.getNextService ([] : Session Nat) emptyDiscover =
      ⟨.ok Option.none, [], 1, 0⟩ :=
  C8_empty_discovery_is_normal_none exampleDisc [] emptyDiscover
    (Val.str "https://id.example/x") rfl rfl

/-- Driving `advanceN` for exactly `len services` steps hands out all
pending services in order and ends with an empty pending list. -/
theorem advanceN_spec {α : Type} :
    ∀ (l : List (Val α)) (m : YadisServiceManager α), m.services = l →
      (advanceN l.length m).1 = l ∧ (advanceN l.length m).2.services = [] := by
  intro l
  induction l with
  | nil => intro m h; exact ⟨rfl, h⟩
  | cons s rest ih =>
    intro m h
    have hnext := ih { m with cur := s, services := rest } rfl
    simp [advanceN, YadisServiceManager.next, h, hnext.1, hnext.2]

/-- C7: the queue built from a non-empty candidate list `C` hands out
exactly the elements of `C` in order under repeated `advance`, after which
`advance` fails with `StopIteration`; each successful `advance` decreases
the remaining count by exactly one. -/
theorem C7_advance_in_order {α : Type} (C : List (Val α)) (su yu sk : Val α)
    (hC : C ≠ []) (m : YadisServiceManager α)
    (hm : YadisServiceManager.init su yu (Val.list C) sk = .ok m) :
    (advanceN C.length m).1 = C ∧
    (advanceN C.length m).2.next = (Option.none, (advanceN C.length m).2) ∧
    ∀ (k k' : YadisServiceManager α) (s : Val α),
      k.next = (some s, k') → k'.len + 1 = k.len := by
  have hmv : m.services = C := by
    simp [YadisServiceManager.init, pyList] at hm
    rw [← hm]
  obtain ⟨h1, h2⟩ := advanceN_spec C m hmv
  refine ⟨h1, ?_, ?_⟩
  · unfold YadisServiceManager.next
    rw [h2]
  · intro k k' s hk
    unfold YadisServiceManager.next at hk
    cases hsv : k.services with
    | nil => rw [hsv] at hk; cases hk
    | cons a rest =>
      rw [hsv] at hk
      simp at hk
      rw [← hk.2]
      simp [YadisServiceManager.len, hsv]

/-- `destroyManager` deletes the coordinator's slot at most once. -/
theorem destroyManager_muts_le_one {α : Type} [BEq α] (disc : Discovery)
    (sess : Session α) (force : Bool) (s : Session α) (n : Nat)
    (h : disc.destroyManager sess force = .ok (s, n)) : n ≤ 1 := by
  unfold Discovery.destroyManager at h
  cases hg : disc.getManager sess force with
  | error e => rw [hg] at h; cases h
  | ok o =>
    rw [hg] at h
    cases o with
    | none => simp at h; omega
    | some m => simp at h; omega

/-- `createManager` writes the coordinator's slot at most once. -/
theorem createManager_muts_le_one {α : Type} [BEq α] (disc : Discovery)
    (sess : Session α) (services : List (Val α)) (yu : Val α)
    (mg : Option (YadisServiceManager α)) (s : Session α) (n : Nat)
    (h : disc.createManager sess services yu = .ok (mg, s, n)) : n ≤ 1 := by
  unfold Discovery.createManager at h
  split at h
  · cases h
  · split at h
    · cases h
    · split at h
      · simp only [Except.ok.injEq, Prod.mk.injEq] at h
        obtain ⟨-, -, h3⟩ := h
        omega
      · simp only [Except.ok.injEq, Prod.mk.injEq] at h
        obtain ⟨-, -, h3⟩ := h
        omega

/-- The hand-out step (`next` + `store`) writes the slot at most once. -/
theorem handOut_muts_le_one {α : Type} [BEq α] (disc : Discovery)
    (mgr : Option (YadisServiceManager α)) (sess : Session α)
    (r : Except String (Option (Val α))) (s : Session α) (n : Nat)
    (h : disc.handOut mgr sess = (r, s, n)) : n ≤ 1 := by
  cases mgr with
  | none =>
    simp only [Discovery.handOut, Prod.mk.injEq] at h
    obtain ⟨-, -, h3⟩ := h
    omega
  | some m =>
    simp only [Discovery.handOut] at h
    cases htr : m.isTruthy with
    | false =>
      simp only [htr, Bool.false_eq_true, if_false, Prod.mk.injEq] at h
      obtain ⟨-, -, h3⟩ := h
      omega
    | true =>
      simp only [htr, if_true] at h
      rcases hn : m.next with ⟨os, m'⟩
      rw [hn] at h
      cases os with
      | none =>
        simp only [Prod.mk.injEq] at h
        obtain ⟨-, -, h3⟩ := h
        omega
      | some sv =>
        simp only [Prod.mk.injEq] at h
        obtain ⟨-, -, h3⟩ := h
        split at h3 <;> omega

/-- C3 counterexample: one `getNextService` call from the empty session
with a two-candidate discovery result mutates the coordinator's session
slot twice (store on creation, store after advancing), contradicting the
claimed "exactly 0 or 1" slot mutations. -/
theorem C3_counterexample :
    step1Res.slotMutations = 2 ∧
    ((step1Res.slotMutations == 0) || (step1Res.slotMutations == 1)) =
      false :=
  ⟨rfl, rfl⟩

/-- C3 (amended): over every session and discovery function, one
`getNextService` call invokes the injected discovery function 0 or 1
times and mutates the session slot at most 3 times (delete of an
exhausted queue, store on creation, store after advancing). -/
theorem C3_amended_effect_bounds {α : Type} [BEq α] (disc : Discovery)
    (sess : Session α) (discover : String → Val α × List (Val α)) :
    (disc.getNextService sess discover).discoverCalls ≤ 1 ∧
    (disc.getNextService sess discover).slotMutations ≤ 3 := by
  unfold Discovery.getNextService
  cases hg : disc.getManager sess false with
  | error e => exact ⟨by simp, by simp⟩
  | ok mgr0 =>
    cases mgr0 with
    | none =>
      simp only []
      rcases hd : discover disc.url with ⟨yu, svs⟩
      cases hc : disc.createManager sess svs yu with
      | error e => simp [hd, hc]
      | ok trip =>
        rcases trip with ⟨mgrNew, sess2, muts2⟩
        rcases hh : disc.handOut mgrNew sess2 with ⟨res, sess3, muts3⟩
        have h2 := createManager_muts_le_one disc sess svs yu mgrNew sess2
          muts2 hc
        have h3 := handOut_muts_le_one disc mgrNew sess2 res sess3 muts3 hh
        simp [hd, hc, hh]
        omega
    | some m =>
      cases ht : m.isTruthy with
      | true =>
        rcases hh : disc.handOut (some m) sess with ⟨res, sess3, muts3⟩
        have h3 := handOut_muts_le_one disc (some m) sess res sess3 muts3 hh
        simp [ht, hh]
        omega
      | false =>
        cases hdm : disc.destroyManager sess false with
        | error e => simp [ht, hdm]
        | ok pr =>
          rcases pr with ⟨sess1, muts1⟩
          have h1 := destroyManager_muts_le_one disc sess false sess1 muts1
            hdm
          rcases hd : discover disc.url with ⟨yu, svs⟩
          cases hc : disc.createManager sess1 svs yu with
          | error e => simp [ht, hdm, hd, hc]; omega
          | ok trip =>
            rcases trip with ⟨mgrNew, sess2, muts2⟩
            rcases hh : disc.handOut mgrNew sess2 with ⟨res, sess3, muts3⟩
            have h2 := createManager_muts_le_one disc sess1 svs yu mgrNew
              sess2 muts2 hc
            have h3 := handOut_muts_le_one disc mgrNew sess2 res sess3 muts3
              hh
            simp [ht, hdm, hd, hc, hh]
            omega

theorem C7_witness :
    (advanceN 2 twoMgr).1 = [Val.svc 1, Val.svc 2] ∧
    (advanceN 2 twoMgr).2.next = (Option.none, (advanceN 2 twoMgr).2) ∧
    twoMgrAfter.len + 1 = twoMgr.len :=
  have h := C7_advance_in_order [Val.svc 1, Val.svc 2] Val.none Val.none
    Val.none (List.cons_ne_nil _ _) twoMgr rfl
  ⟨h.1, h.2.1, h.2.2 twoMgr twoMgrAfter (Val.svc 1) rfl⟩
